import Mathlib

/-!
Verification of the adaptation-decision orchestrator in
`src/backend/backend.py` (MA-SIF pipeline): the rule fallback engine
`mock_fusion`, the per-agent invoker `call_gemini_with_timeout`, the
cascade in `ma_smart_intent_fusion`, and the HTTP / WebSocket handlers
`process_event` / `websocket_adapt`.

External reasoning calls (Gemini) are opaque, fallible functions; each
raw call outcome is modelled as `Except GeminiError (List Candidate)`
(an error constructor per failure mode caught by the code), and the
pipeline is a function of those outcomes.  The validator outcome is a
function of the prompt input the orchestrator builds for it, so that
"what the validator is given" is observable.
-/

namespace Backend

/-- Failure modes of one external reasoning call, as caught by the
`except (Exception, TimeoutError)` clause in `call_gemini_with_timeout`:
the alarm-driven timeout, transport errors from the client, JSON decode
errors from `json.loads`, and responses violating the declared schema
(e.g. missing `adaptations`). -/
inductive GeminiError
  | timeout
  | transport (msg : String)
  | decodeError
  | schemaViolation
deriving DecidableEq, Repr

/-- Value carried by a candidate's `value` field: the JSON schema allows
`number` or `string`.  A number is kept as its decimal representation
`mantissa * 10 ^ (-exp10)`, so `1.3` is `num 13 1` and `1.5` is
`num 15 1`. -/
inductive CandidateValue
  | num (mantissa : Int) (exp10 : Nat)
  | str (s : String)
deriving DecidableEq, Repr

/-- One suggested UI change (`AdaptationCandidate` of the spec; a JSON
object in the code).  `agent` is the optional provenance tag of the
spec's data model; `validator_reason` is the optional field of the
validator schema. -/
structure Candidate where
  action : String
  target : String
  value : Option CandidateValue := none
  mode : Option String := none
  reason : String
  intent : String
  validator_reason : Option String := none
  agent : Option String := none
deriving DecidableEq, Repr

/-- Accessibility flags read by `mock_fusion` via
`profile.get("accessibility_needs", {}).get(...)`; a missing or falsy
entry behaves as `false`. -/
structure AccessibilityNeeds where
  motor_impaired : Bool := false
  visual_impaired : Bool := false
deriving DecidableEq, Repr

/-- Per-user profile as read by the backend: the pipeline reads the
accessibility flags and the stored interaction history (serialized
events). -/
structure Profile where
  user_id : String := ""
  accessibility_needs : AccessibilityNeeds := {}
  interaction_history : List String := []
deriving DecidableEq, Repr

/-- One observed user interaction (the `Event` pydantic model). -/
structure Event where
  event_type : String
  source : String := ""
  timestamp : String := ""
  user_id : String := ""
  target_element : Option String := none
deriving DecidableEq, Repr

/-- Python truthiness coercion `event.target_element or "all"`:
`None` and the empty string are falsy, so both yield `"all"`. -/
def orAll (t : Option String) : String :=
  match t with
  | none => "all"
  | some s => if s = "" then "all" else s

/-- Python substring containment `needle in hay` on character lists:
some tail of the haystack starts with the needle. -/
def containsSub (needle : List Char) : List Char → Bool
  | [] => needle.isPrefixOf []
  | c :: rest => needle.isPrefixOf (c :: rest) || containsSub needle rest

/-- Guard of the first `mock_fusion` branch:
`event.event_type == "miss_tap" or "slider_miss" in event.event_type`. -/
def missTapGuard (event : Event) : Bool :=
  event.event_type == "miss_tap" ||
    containsSub "slider_miss".data event.event_type.data

/-- Candidate appended by the miss-tap branch of `mock_fusion`. -/
def missTapCandidate (event : Event) : Candidate :=
  { action := "increase_button_size"
    target := orAll event.target_element
    value := some (.num 13 1)
    reason := "Miss-tap detected, increasing target size"
    intent := "User had difficulty hitting target" }

/-- Candidate appended by the motor-impairment branch of `mock_fusion`. -/
def motorCandidate : Candidate :=
  { action := "increase_button_size"
    target := "all"
    value := some (.num 15 1)
    reason := "Motor impairment detected, enlarging all elements"
    intent := "Improve accessibility for motor difficulties" }

/-- Candidate appended by the visual-impairment branch of `mock_fusion`. -/
def visualCandidate : Candidate :=
  { action := "increase_contrast"
    target := "all"
    mode := some "high"
    reason := "Visual impairment detected, increasing contrast"
    intent := "Improve visibility for visual difficulties" }

/-- Candidate appended by the voice branch of `mock_fusion`. -/
def voiceCandidate : Candidate :=
  { action := "switch_mode"
    target := "all"
    mode := some "voice"
    reason := "Voice input detected, switching to voice mode"
    intent := "User prefers voice interaction" }

/-- The rule fallback engine `mock_fusion(event, profile, history)`:
starts from an empty list and appends one candidate per guard that
holds, in source order. -/
def mock_fusion (event : Event) (profile : Profile)
    (history : List String) : List Candidate :=
  let adaptations : List Candidate := []
  let adaptations :=
    if missTapGuard event then adaptations ++ [missTapCandidate event]
    else adaptations
  let adaptations :=
    if profile.accessibility_needs.motor_impaired then
      adaptations ++ [motorCandidate]
    else adaptations
  let adaptations :=
    if profile.accessibility_needs.visual_impaired then
      adaptations ++ [visualCandidate]
    else adaptations
  let adaptations :=
    if event.event_type = "voice" then adaptations ++ [voiceCandidate]
    else adaptations
  adaptations

/-- The invoker `call_gemini_with_timeout`: a raw outcome that succeeded
yields its parsed `adaptations` list; every caught failure is converted
to the empty list (`return []` in the `except` clause). -/
def call_gemini_with_timeout
    (outcome : Except GeminiError (List Candidate)) : List Candidate :=
  match outcome with
  | .ok cs => cs
  | .error _ => []

/-- Input the orchestrator substitutes into the validator prompt
template (`sif_config["validator_prompt"].format(...)`): the three
per-agent suggestion lists, the event, the profile, and the history
value passed as `history_json`. -/
structure ValidatorPromptInput where
  ui_suggestions : List Candidate
  geometry_suggestions : List Candidate
  other_suggestions : List Candidate
  event : Event
  profile : Profile
  history : List String
deriving Repr

/-- The validator prompt input as built at the call site: the code
passes `history_json=[]`, a literal empty list, not the run's
history. -/
def validatorPromptInput (ui geo oth : List Candidate) (event : Event)
    (profile : Profile) : ValidatorPromptInput :=
  { ui_suggestions := ui
    geometry_suggestions := geo
    other_suggestions := oth
    event := event
    profile := profile
    history := [] }

/-- Raw outcomes of the external reasoning calls of one run: one per
non-validator agent, and the validator's as a function of the prompt
input it is handed. -/
structure AgentOutcomes where
  ui : Except GeminiError (List Candidate)
  geometry : Except GeminiError (List Candidate)
  other : Except GeminiError (List Candidate)
  validator : ValidatorPromptInput → Except GeminiError (List Candidate)

/-- Classification tag of a decision (spec section 4.2): which return
site of `ma_smart_intent_fusion` produced it. -/
inductive Classification
  | validated
  | combined_unvalidated
  | rule_fallback
deriving DecidableEq, Repr

/-- Final output of the orchestrator: the returned candidate list,
tagged with the return site that produced it. -/
structure Decision where
  candidates : List Candidate
  classification : Classification
deriving DecidableEq, Repr

/-- The pre-validation aggregate of one run: the concatenation of the
three agents' (post-invoker) candidate lists, as built by the
`all_adaptations.extend(...)` statements. -/
def aggregateOf (outcomes : AgentOutcomes) : List Candidate :=
  call_gemini_with_timeout outcomes.ui ++
    call_gemini_with_timeout outcomes.geometry ++
    call_gemini_with_timeout outcomes.other

/-- The cascade `ma_smart_intent_fusion(event, profile, history)`:
fan-out over the three agents, aggregate, consult the validator if the
aggregate is non-empty, and fall back to `mock_fusion` otherwise. -/
def ma_smart_intent_fusion (outcomes : AgentOutcomes) (event : Event)
    (profile : Profile) (history : List String) : Decision :=
  let ui_suggestions := call_gemini_with_timeout outcomes.ui
  let geometry_suggestions := call_gemini_with_timeout outcomes.geometry
  let other_suggestions := call_gemini_with_timeout outcomes.other
  let all_adaptations :=
    ui_suggestions ++ geometry_suggestions ++ other_suggestions
  if all_adaptations ≠ [] then
    let final_adaptations := call_gemini_with_timeout
      (outcomes.validator (validatorPromptInput ui_suggestions
        geometry_suggestions other_suggestions event profile))
    if final_adaptations ≠ [] then
      { candidates := final_adaptations, classification := .validated }
    else
      { candidates := all_adaptations
        classification := .combined_unvalidated }
  else
    { candidates := mock_fusion event profile history
      classification := .rule_fallback }

/-- The result the invoker returns for the validator call of one run:
the validator outcome at the prompt input the orchestrator builds
(three post-invoker suggestion lists, event, profile), pushed through
`call_gemini_with_timeout`. -/
def validatorResultOf (outcomes : AgentOutcomes) (event : Event)
    (profile : Profile) : List Candidate :=
  call_gemini_with_timeout
    (outcomes.validator (validatorPromptInput
      (call_gemini_with_timeout outcomes.ui)
      (call_gemini_with_timeout outcomes.geometry)
      (call_gemini_with_timeout outcomes.other) event profile))

/-- Structural candidate schema of spec section 6 together with the
non-emptiness invariant of section 3: exactly one of `value` / `mode`
is present, and `action`, `target`, `reason`, `intent` are non-empty. -/
def candidateOk (c : Candidate) : Bool :=
  (c.value.isSome ^^ c.mode.isSome) && c.action != "" && c.target != "" &&
    c.reason != "" && c.intent != ""

/-- Python runtime error relevant to the endpoint handlers: the
`TypeError` raised when a call supplies the wrong number of positional
arguments. -/
inductive PyError
  | typeError (msg : String)
deriving DecidableEq, Repr

/-- Parameter list of `async def append_event(user_id, event_data)`. -/
def append_event_params : List String := ["user_id", "event_data"]

/-- Python positional-call semantics: calling a plain function with an
argument count different from its parameter count raises `TypeError`
before the body runs. -/
def checkCallArity (fname : String) (params : List String)
    (argCount : Nat) : Except PyError Unit :=
  if argCount = params.length then .ok ()
  else .error (.typeError (fname ++ ": positional argument count mismatch"))

/-- Number of arguments `process_event` passes to `append_event`:
`append_event(event.user_id, event.dict(exclude_none=True), background_tasks)`. -/
def process_event_append_argCount : Nat := 3

/-- Number of arguments `websocket_adapt` passes to `append_event`:
`append_event(event.user_id, event.model_dump_json())`. -/
def websocket_append_argCount : Nat := 2

/-- The HTTP handler `process_event` (POST `/context`): loads the
profile, takes its stored history, computes the adaptations through the
pipeline, then calls `append_event` with three arguments.  Its result is
either the JSON body returned to the HTTP caller or a raised Python
error. -/
def process_event (outcomes : AgentOutcomes) (event : Event)
    (profile : Profile) : Except PyError (List Candidate) :=
  let history := profile.interaction_history
  let adaptations :=
    (ma_smart_intent_fusion outcomes event profile history).candidates
  match checkCallArity "append_event" append_event_params
      process_event_append_argCount with
  | .error e => .error e
  | .ok _ => .ok adaptations

/-- One loop iteration of the WebSocket handler `websocket_adapt`
(`/ws/adapt`) after the event is parsed and the profile loaded: computes
the adaptations, calls `append_event` with two arguments, and sends the
adaptations back over the socket. -/
def websocket_adapt_step (outcomes : AgentOutcomes) (event : Event)
    (profile : Profile) : Except PyError (List Candidate) :=
  let history := profile.interaction_history
  let adaptations :=
    (ma_smart_intent_fusion outcomes event profile history).candidates
  match checkCallArity "append_event" append_event_params
      websocket_append_argCount with
  | .error e => .error e
  | .ok _ => .ok adaptations

/-- Event of the concrete scenario in the spec: a miss-tap on the lamp
element. -/
def lampEvent : Event :=
  { event_type := "miss_tap", target_element := some "lamp" }

/-- Profile with no accessibility flags set. -/
def plainProfile : Profile := {}

/-- Unfolding of `mock_fusion` as the concatenation of four independent
guard segments, one per source branch, in evaluation order. -/
theorem mock_fusion_eq (event : Event) (profile : Profile)
    (history : List String) :
    mock_fusion event profile history =
      (if missTapGuard event then [missTapCandidate event] else []) ++
      (if profile.accessibility_needs.motor_impaired then [motorCandidate]
        else []) ++
      (if profile.accessibility_needs.visual_impaired then [visualCandidate]
        else []) ++
      (if event.event_type = "voice" then [voiceCandidate] else []) := by
  simp only [mock_fusion]
  split <;> split <;> split <;> split <;> simp

/-- C5: the rule fallback engine evaluates exactly four independent,
non-exclusive guards in fixed order — miss-tap / slider-miss enlarge
(multiplier 1.3, targeting the event's target element or `all` when it
is absent), motor-impaired enlarge-all (multiplier 1.5), visual-impaired
high-contrast on `all`, and voice-mode switch — yielding at most four
candidates in that guard order, the empty list when no guard holds, and
exactly the three candidates miss-tap enlarge, motor enlarge-all, visual
contrast-all, in that order, for a miss-tap event with both impairment
flags set. -/
theorem mock_fusion_four_guards :
    (∀ (e : Event) (p : Profile) (h : List String),
      mock_fusion e p h =
        (if missTapGuard e then [missTapCandidate e] else []) ++
        (if p.accessibility_needs.motor_impaired then [motorCandidate]
          else []) ++
        (if p.accessibility_needs.visual_impaired then [visualCandidate]
          else []) ++
        (if e.event_type = "voice" then [voiceCandidate] else [])) ∧
    (∀ (e : Event),
      (missTapCandidate e).action = "increase_button_size" ∧
      (missTapCandidate e).value = some (.num 13 1) ∧
      (e.target_element = none → (missTapCandidate e).target = "all") ∧
      (∀ t, e.target_element = some t → t ≠ "" →
        (missTapCandidate e).target = t)) ∧
    (∀ (e : Event) (p : Profile) (h : List String),
      (mock_fusion e p h).length ≤ 4) ∧
    (∀ (e : Event) (p : Profile) (h : List String),
      missTapGuard e = false →
      p.accessibility_needs.motor_impaired = false →
      p.accessibility_needs.visual_impaired = false →
      e.event_type ≠ "voice" →
      mock_fusion e p h = []) ∧
    (∀ (h : List String),
      mock_fusion lampEvent
        { accessibility_needs :=
            { motor_impaired := true, visual_impaired := true } } h =
        [missTapCandidate lampEvent, motorCandidate, visualCandidate]) := by
  refine ⟨mock_fusion_eq, ?_, ?_, ?_, ?_⟩
  · intro e
    refine ⟨rfl, rfl, ?_, ?_⟩
    · intro hnone
      simp [missTapCandidate, orAll, hnone]
    · intro t ht hne
      simp [missTapCandidate, orAll, ht, hne]
  · intro e p h
    rw [mock_fusion_eq]
    split <;> split <;> split <;> split <;> simp
  · intro e p h hmt hmi hvi hv
    rw [mock_fusion_eq, hmt, hmi, hvi, if_neg hv]
    simp
  · intro h
    rw [mock_fusion_eq]
    decide

/-- Witness for `mock_fusion_four_guards`: no guard holds for a plain
tap with an empty profile, and the miss-tap candidate targets the
event's concrete target element. -/
theorem mock_fusion_four_guards_witness :
    mock_fusion { event_type := "tap" } plainProfile [] = [] ∧
    (missTapCandidate lampEvent).target = "lamp" :=
  ⟨mock_fusion_four_guards.2.2.2.1 { event_type := "tap" } plainProfile []
      (by decide) rfl rfl (by decide),
    (mock_fusion_four_guards.2.1 lampEvent).2.2.2 "lamp" rfl (by decide)⟩

/-- C6: the rule fallback engine is deterministic and independent of
history — identical (event, profile) inputs yield identical output for
any two history arguments. -/
theorem mock_fusion_deterministic :
    ∀ (e1 e2 : Event) (p1 p2 : Profile) (h1 h2 : List String),
      e1 = e2 → p1 = p2 → mock_fusion e1 p1 h1 = mock_fusion e2 p2 h2 := by
  intro e1 e2 p1 p2 h1 h2 he hp
  subst he
  subst hp
  rfl

/-- Witness for `mock_fusion_deterministic`: two runs on the same event
and profile but different histories coincide. -/
theorem mock_fusion_deterministic_witness :
    mock_fusion lampEvent plainProfile ["event_a"] =
      mock_fusion lampEvent plainProfile ["event_b", "event_c"] :=
  mock_fusion_deterministic lampEvent lampEvent plainProfile plainProfile
    ["event_a"] ["event_b", "event_c"] rfl rfl

/-- Case analysis of the cascade: the decision is the validator result,
the aggregate, or the rule fallback, selected by the two non-emptiness
tests in source order. -/
theorem ma_smart_intent_fusion_eq (o : AgentOutcomes) (e : Event)
    (p : Profile) (h : List String) :
    ma_smart_intent_fusion o e p h =
      if aggregateOf o ≠ [] then
        if validatorResultOf o e p ≠ [] then
          { candidates := validatorResultOf o e p
            classification := .validated }
        else
          { candidates := aggregateOf o
            classification := .combined_unvalidated }
      else
        { candidates := mock_fusion e p h
          classification := .rule_fallback } := rfl

/-- Sample agent-produced candidate used in concrete runs; its `agent`
field is unset, as in every raw agent response. -/
def sampleAgentCandidate : Candidate :=
  { action := "increase_contrast", target := "all", mode := some "high",
    reason := "agent suggestion", intent := "improve visibility" }

/-- Sample validator-produced candidate used in concrete runs. -/
def sampleValidatorCandidate : Candidate :=
  { action := "switch_mode", target := "all", mode := some "voice",
    reason := "validated suggestion", intent := "voice preferred",
    validator_reason := some "accepted" }

/-- Run in which every external call fails. -/
def allFailOutcomes : AgentOutcomes :=
  { ui := .error .timeout, geometry := .error .decodeError,
    other := .error .schemaViolation, validator := fun _ => .error .timeout }

/-- Run in which the UI agent succeeds and the validator accepts. -/
def validatorOkOutcomes : AgentOutcomes :=
  { ui := .ok [sampleAgentCandidate], geometry := .error .timeout,
    other := .error .timeout,
    validator := fun _ => .ok [sampleValidatorCandidate] }

/-- Run in which only the UI agent succeeds and the validator fails. -/
def validatorFailOutcomes : AgentOutcomes :=
  { ui := .ok [sampleAgentCandidate], geometry := .error (.transport "reset"),
    other := .error .timeout, validator := fun _ => .error .decodeError }

/-- C1: whenever every non-validator agent call fails (yields an empty
candidate list), the pipeline does not throw and returns exactly the
rule fallback engine's deterministic output for the (event, profile)
pair, classified `rule_fallback`; in particular, for a miss-tap on
`lamp` with a flag-free profile the result is the single 1.3
enlarge-lamp candidate. -/
theorem total_failure_rule_fallback :
    (∀ (o : AgentOutcomes) (e : Event) (p : Profile) (h : List String),
      call_gemini_with_timeout o.ui = [] →
      call_gemini_with_timeout o.geometry = [] →
      call_gemini_with_timeout o.other = [] →
      ma_smart_intent_fusion o e p h =
        { candidates := mock_fusion e p h
          classification := .rule_fallback }) ∧
    (∀ (o : AgentOutcomes) (h : List String),
      call_gemini_with_timeout o.ui = [] →
      call_gemini_with_timeout o.geometry = [] →
      call_gemini_with_timeout o.other = [] →
      ma_smart_intent_fusion o lampEvent plainProfile h =
        { candidates :=
            [{ action := "increase_button_size", target := "lamp",
               value := some (.num 13 1),
               reason := "Miss-tap detected, increasing target size",
               intent := "User had difficulty hitting target" }]
          classification := .rule_fallback }) := by
  have main : ∀ (o : AgentOutcomes) (e : Event) (p : Profile)
      (h : List String),
      call_gemini_with_timeout o.ui = [] →
      call_gemini_with_timeout o.geometry = [] →
      call_gemini_with_timeout o.other = [] →
      ma_smart_intent_fusion o e p h =
        { candidates := mock_fusion e p h
          classification := .rule_fallback } := by
    intro o e p h hui hgeo hoth
    rw [ma_smart_intent_fusion_eq]
    have hagg : aggregateOf o = [] := by
      simp [aggregateOf, hui, hgeo, hoth]
    simp [hagg]
  refine ⟨main, ?_⟩
  intro o h hui hgeo hoth
  rw [main o lampEvent plainProfile h hui hgeo hoth]
  rfl

/-- Witness for `total_failure_rule_fallback`: a concrete run in which
all three agent calls fail produces the single miss-tap candidate. -/
theorem total_failure_rule_fallback_witness :
    ma_smart_intent_fusion allFailOutcomes lampEvent plainProfile [] =
      { candidates :=
          [{ action := "increase_button_size", target := "lamp",
             value := some (.num 13 1),
             reason := "Miss-tap detected, increasing target size",
             intent := "User had difficulty hitting target" }]
        classification := .rule_fallback } :=
  total_failure_rule_fallback.2 allFailOutcomes [] rfl rfl rfl

/-- C2: when the fan-out aggregate is non-empty and the validator call
succeeds with at least one candidate, the decision is the validator's
output verbatim, classified `validated`. -/
theorem validator_precedence :
    ∀ (o : AgentOutcomes) (e : Event) (p : Profile) (h : List String),
      aggregateOf o ≠ [] → validatorResultOf o e p ≠ [] →
      ma_smart_intent_fusion o e p h =
        { candidates := validatorResultOf o e p
          classification := .validated } := by
  intro o e p h hagg hval
  rw [ma_smart_intent_fusion_eq, if_pos hagg, if_pos hval]

/-- Witness for `validator_precedence`: a concrete run in which the UI
agent succeeds and the validator accepts returns the validator's
list. -/
theorem validator_precedence_witness :
    ma_smart_intent_fusion validatorOkOutcomes lampEvent plainProfile [] =
      { candidates := [sampleValidatorCandidate]
        classification := .validated } :=
  validator_precedence validatorOkOutcomes lampEvent plainProfile []
    (by decide) (by decide)

/-- C3: when the fan-out aggregate is non-empty and the validator call
fails or returns an empty list, the decision is the pre-validation
aggregate — the concatenation of the agents' candidate lists — verbatim,
classified `combined_unvalidated`. -/
theorem degrade_to_aggregate :
    ∀ (o : AgentOutcomes) (e : Event) (p : Profile) (h : List String),
      aggregateOf o ≠ [] → validatorResultOf o e p = [] →
      ma_smart_intent_fusion o e p h =
        { candidates := call_gemini_with_timeout o.ui ++
            call_gemini_with_timeout o.geometry ++
            call_gemini_with_timeout o.other
          classification := .combined_unvalidated } := by
  intro o e p h hagg hval
  rw [ma_smart_intent_fusion_eq, if_pos hagg, if_neg (by simp [hval])]
  rfl

/-- Witness for `degrade_to_aggregate`: a concrete run in which only the
UI agent succeeds and the validator fails returns the UI agent's list
unchanged. -/
theorem degrade_to_aggregate_witness :
    ma_smart_intent_fusion validatorFailOutcomes lampEvent plainProfile [] =
      { candidates := [sampleAgentCandidate]
        classification := .combined_unvalidated } :=
  degrade_to_aggregate validatorFailOutcomes lampEvent plainProfile []
    (by decide) (by decide)

/-- C4: every failure mode of an external reasoning call is converted by
the invoker into an empty candidate list, never an exception, and for
every assignment of raw outcomes the pipeline returns one of the three
well-formed decisions (validator output, aggregate, or rule fallback). -/
theorem invoker_contains_failures :
    (∀ err : GeminiError, call_gemini_with_timeout (.error err) = []) ∧
    (∀ (o : AgentOutcomes) (e : Event) (p : Profile) (h : List String),
      ma_smart_intent_fusion o e p h =
          { candidates := validatorResultOf o e p
            classification := .validated } ∨
      ma_smart_intent_fusion o e p h =
          { candidates := aggregateOf o
            classification := .combined_unvalidated } ∨
      ma_smart_intent_fusion o e p h =
          { candidates := mock_fusion e p h
            classification := .rule_fallback }) := by
  constructor
  · intro err
    rfl
  · intro o e p h
    rw [ma_smart_intent_fusion_eq]
    by_cases hagg : aggregateOf o ≠ []
    · by_cases hval : validatorResultOf o e p ≠ []
      · exact .inl (by rw [if_pos hagg, if_pos hval])
      · exact .inr (.inl (by rw [if_pos hagg, if_neg hval]))
    · exact .inr (.inr (by rw [if_neg hagg]))

/-- The Python coercion `target_element or "all"` never yields the empty
string. -/
theorem orAll_ne_empty (t : Option String) : orAll t ≠ "" := by
  match t with
  | none => decide
  | some s =>
    by_cases hs : s = ""
    · subst hs
      decide
    · simp only [orAll]
      rw [if_neg hs]
      exact hs

/-- The miss-tap candidate satisfies the candidate schema for every
event. -/
theorem missTapCandidate_ok (e : Event) :
    candidateOk (missTapCandidate e) = true := by
  have h := orAll_ne_empty e.target_element
  simp [candidateOk, missTapCandidate, h]

/-- Every candidate the rule fallback engine produces satisfies the
candidate schema. -/
theorem mock_fusion_candidates_ok (e : Event) (p : Profile)
    (h : List String) :
    ∀ c ∈ mock_fusion e p h, candidateOk c = true := by
  intro c hc
  rw [mock_fusion_eq] at hc
  simp only [List.mem_append] at hc
  rcases hc with ((h1 | h2) | h3) | h4
  · rcases Classical.em (missTapGuard e = true) with hg | hg
    · rw [if_pos hg] at h1
      simp only [List.mem_singleton] at h1
      subst h1
      exact missTapCandidate_ok e
    · rw [if_neg hg] at h1
      exact absurd h1 (List.not_mem_nil c)
  · rcases Classical.em (p.accessibility_needs.motor_impaired = true)
      with hg | hg
    · rw [if_pos hg] at h2
      simp only [List.mem_singleton] at h2
      subst h2
      decide
    · rw [if_neg hg] at h2
      exact absurd h2 (List.not_mem_nil c)
  · rcases Classical.em (p.accessibility_needs.visual_impaired = true)
      with hg | hg
    · rw [if_pos hg] at h3
      simp only [List.mem_singleton] at h3
      subst h3
      decide
    · rw [if_neg hg] at h3
      exact absurd h3 (List.not_mem_nil c)
  · rcases Classical.em (e.event_type = "voice") with hg | hg
    · rw [if_pos hg] at h4
      simp only [List.mem_singleton] at h4
      subst h4
      decide
    · rw [if_neg hg] at h4
      exact absurd h4 (List.not_mem_nil c)

/-- A candidate returned by the invoker comes from a successful raw
outcome. -/
theorem call_gemini_mem (o : Except GeminiError (List Candidate))
    (c : Candidate) (hc : c ∈ call_gemini_with_timeout o) :
    ∃ cs, o = .ok cs ∧ c ∈ cs := by
  match o with
  | .ok cs => exact ⟨cs, rfl, hc⟩
  | .error _ => exact absurd hc (List.not_mem_nil c)

/-- Candidate violating the candidate schema: both `value` and `mode`
are present and `reason` is empty. -/
def malformedCandidate : Candidate :=
  { action := "increase_button_size", target := "all",
    value := some (.num 2 0), mode := some "high",
    reason := "", intent := "make everything bigger" }

/-- Run in which the UI agent succeeds with a schema-violating
candidate and every other external call fails. -/
def malformedRunOutcomes : AgentOutcomes :=
  { ui := .ok [malformedCandidate], geometry := .error .timeout,
    other := .error .timeout, validator := fun _ => .error .timeout }

/-- C7 counterexample: the invoker performs no client-side candidate
validation, so a successful agent response containing a schema-violating
candidate (both `value` and `mode` present, empty `reason`) reaches the
returned decision unfiltered on the `combined_unvalidated` path — the
unconditional schema invariant fails on this run. -/
theorem schema_invariant_counterexample :
    ma_smart_intent_fusion malformedRunOutcomes lampEvent plainProfile [] =
      { candidates := [malformedCandidate]
        classification := .combined_unvalidated } ∧
    candidateOk malformedCandidate = false := by
  constructor
  · decide
  · decide

/-- C7 amended: every candidate returned on the `rule_fallback` path
satisfies the candidate schema — exactly one of `value` / `mode` present
and non-empty `action`, `target`, `reason`, `intent` — unconditionally;
on the `validated` and `combined_unvalidated` paths candidates are
passed through verbatim from the external responses without client-side
validation, so they satisfy the schema exactly when each successful
external response does. -/
theorem schema_ok_amended :
    (∀ (o : AgentOutcomes) (e : Event) (p : Profile) (h : List String),
      (ma_smart_intent_fusion o e p h).classification = .rule_fallback →
      ∀ c ∈ (ma_smart_intent_fusion o e p h).candidates,
        candidateOk c = true) ∧
    (∀ (o : AgentOutcomes) (e : Event) (p : Profile) (h : List String),
      (∀ cs, o.ui = .ok cs → ∀ c ∈ cs, candidateOk c = true) →
      (∀ cs, o.geometry = .ok cs → ∀ c ∈ cs, candidateOk c = true) →
      (∀ cs, o.other = .ok cs → ∀ c ∈ cs, candidateOk c = true) →
      (∀ inp cs, o.validator inp = .ok cs → ∀ c ∈ cs, candidateOk c = true) →
      ∀ c ∈ (ma_smart_intent_fusion o e p h).candidates,
        candidateOk c = true) := by
  constructor
  · intro o e p h hclass c hc
    rw [ma_smart_intent_fusion_eq] at hclass hc
    by_cases hagg : aggregateOf o ≠ []
    · by_cases hv : validatorResultOf o e p ≠ []
      · rw [if_pos hagg, if_pos hv] at hclass
        simp at hclass
      · rw [if_pos hagg, if_neg hv] at hclass
        simp at hclass
    · rw [if_neg hagg] at hc
      exact mock_fusion_candidates_ok e p h c hc
  · intro o e p h hui hgeo hoth hval c hc
    rw [ma_smart_intent_fusion_eq] at hc
    by_cases hagg : aggregateOf o ≠ []
    · by_cases hv : validatorResultOf o e p ≠ []
      · rw [if_pos hagg, if_pos hv] at hc
        have hc' : c ∈ validatorResultOf o e p := hc
        obtain ⟨cs, hok, hmem⟩ := call_gemini_mem _ c hc'
        exact hval _ cs hok c hmem
      · rw [if_pos hagg, if_neg hv] at hc
        have hc' : c ∈ aggregateOf o := hc
        simp only [aggregateOf, List.mem_append] at hc'
        rcases hc' with (h1 | h2) | h3
        · obtain ⟨cs, hok, hmem⟩ := call_gemini_mem _ c h1
          exact hui cs hok c hmem
        · obtain ⟨cs, hok, hmem⟩ := call_gemini_mem _ c h2
          exact hgeo cs hok c hmem
        · obtain ⟨cs, hok, hmem⟩ := call_gemini_mem _ c h3
          exact hoth cs hok c hmem
    · rw [if_neg hagg] at hc
      exact mock_fusion_candidates_ok e p h c hc

/-- Witness for `schema_ok_amended`: the rule-fallback candidate of the
all-failures run and the validator's accepted candidate of the concrete
validated run both satisfy the schema. -/
theorem schema_ok_amended_witness :
    candidateOk (missTapCandidate lampEvent) = true ∧
    candidateOk sampleValidatorCandidate = true := by
  constructor
  · have hmem : missTapCandidate lampEvent ∈
        (ma_smart_intent_fusion allFailOutcomes lampEvent plainProfile
          []).candidates := by decide
    exact schema_ok_amended.1 allFailOutcomes lampEvent plainProfile []
      (by decide) (missTapCandidate lampEvent) hmem
  · have hmem : sampleValidatorCandidate ∈
        (ma_smart_intent_fusion validatorOkOutcomes lampEvent plainProfile
          []).candidates := by decide
    refine schema_ok_amended.2 validatorOkOutcomes lampEvent plainProfile []
      ?_ ?_ ?_ ?_ sampleValidatorCandidate hmem
    · intro cs hcs c hc
      simp only [validatorOkOutcomes] at hcs
      injection hcs with h1
      subst h1
      simp only [List.mem_singleton] at hc
      subst hc
      decide
    · intro cs hcs c hc
      simp [validatorOkOutcomes] at hcs
    · intro cs hcs c hc
      simp [validatorOkOutcomes] at hcs
    · intro inp cs hcs c hc
      simp only [validatorOkOutcomes] at hcs
      injection hcs with h1
      subst h1
      simp only [List.mem_singleton] at hc
      subst hc
      decide

/-- Marker returned by the spying validator when the prompt input it
receives carries an empty history. -/
def emptyHistoryMarker : Candidate :=
  { action := "marker_empty_history", target := "all", mode := some "seen",
    reason := "history received empty", intent := "observe history" }

/-- Marker returned by the spying validator when the prompt input it
receives carries a non-empty history. -/
def nonemptyHistoryMarker : Candidate :=
  { action := "marker_nonempty_history", target := "all",
    mode := some "seen", reason := "history received non-empty",
    intent := "observe history" }

/-- Run whose validator reports which history value it was handed. -/
def historySpyOutcomes : AgentOutcomes :=
  { ui := .ok [sampleAgentCandidate], geometry := .error .timeout,
    other := .error .timeout,
    validator := fun inp =>
      if inp.history = [] then .ok [emptyHistoryMarker]
      else .ok [nonemptyHistoryMarker] }

/-- C8 counterexample: on a run whose interaction history is the
non-empty list `["prior_event"]`, a validator that reports the history
it receives observes an empty one — the returned decision is the
empty-history marker — so the validator is not given the interaction
history of the current run. -/
theorem validator_history_counterexample :
    ma_smart_intent_fusion historySpyOutcomes lampEvent plainProfile
        ["prior_event"] =
      { candidates := [emptyHistoryMarker]
        classification := .validated } ∧
    (["prior_event"] : List String) ≠ [] := by
  constructor
  · decide
  · decide

/-- C8 amended: when the aggregate is non-empty the validator is
consulted at the prompt input holding the three agents' full suggestion
lists (whose concatenation is the aggregate), the event, and the
profile — but with an empty history list in place of the run's
interaction history; the pipeline depends on the validator only through
its value at that input. -/
theorem validator_input_empty_history :
    (∀ (ui geo oth : List Candidate) (e : Event) (p : Profile),
      (validatorPromptInput ui geo oth e p).ui_suggestions ++
          (validatorPromptInput ui geo oth e p).geometry_suggestions ++
          (validatorPromptInput ui geo oth e p).other_suggestions =
        ui ++ geo ++ oth ∧
      (validatorPromptInput ui geo oth e p).event = e ∧
      (validatorPromptInput ui geo oth e p).profile = p ∧
      (validatorPromptInput ui geo oth e p).history = []) ∧
    (∀ (o1 o2 : AgentOutcomes) (e : Event) (p : Profile)
        (h : List String),
      o1.ui = o2.ui → o1.geometry = o2.geometry → o1.other = o2.other →
      o1.validator (validatorPromptInput (call_gemini_with_timeout o1.ui)
          (call_gemini_with_timeout o1.geometry)
          (call_gemini_with_timeout o1.other) e p) =
        o2.validator (validatorPromptInput (call_gemini_with_timeout o1.ui)
          (call_gemini_with_timeout o1.geometry)
          (call_gemini_with_timeout o1.other) e p) →
      ma_smart_intent_fusion o1 e p h = ma_smart_intent_fusion o2 e p h) := by
  constructor
  · intro ui geo oth e p
    exact ⟨rfl, rfl, rfl, rfl⟩
  · intro o1 o2 e p h hui hgeo hoth hval
    rw [ma_smart_intent_fusion_eq, ma_smart_intent_fusion_eq]
    have hagg : aggregateOf o1 = aggregateOf o2 := by
      simp [aggregateOf, hui, hgeo, hoth]
    have hvr : validatorResultOf o1 e p = validatorResultOf o2 e p := by
      unfold validatorResultOf
      rw [hui, hgeo, hoth] at hval
      rw [hui, hgeo, hoth, hval]
    rw [hagg, hvr]

/-- Variant of `validatorOkOutcomes` whose validator agrees with it on
empty-history prompt inputs but fails on all others. -/
def validatorOkOutcomesVariant : AgentOutcomes :=
  { ui := .ok [sampleAgentCandidate], geometry := .error .timeout,
    other := .error .timeout,
    validator := fun inp =>
      if inp.history = [] then .ok [sampleValidatorCandidate]
      else .error .timeout }

/-- Witness for `validator_input_empty_history`: two runs whose
validators agree only on the empty-history prompt input produce the same
decision even though the run's history is non-empty. -/
theorem validator_input_empty_history_witness :
    ma_smart_intent_fusion validatorOkOutcomes lampEvent plainProfile
        ["prior_event"] =
      ma_smart_intent_fusion validatorOkOutcomesVariant lampEvent
        plainProfile ["prior_event"] :=
  validator_input_empty_history.2 validatorOkOutcomes
    validatorOkOutcomesVariant lampEvent plainProfile ["prior_event"]
    rfl rfl rfl rfl

/-- C9 counterexample: a run in which the UI agent succeeds with a
candidate whose `agent` field is unset and the validator fails returns
that candidate in the aggregate still untagged — the orchestrator sets
no provenance field. -/
theorem provenance_untagged_counterexample :
    ma_smart_intent_fusion validatorFailOutcomes lampEvent plainProfile
        [] =
      { candidates := [sampleAgentCandidate]
        classification := .combined_unvalidated } ∧
    sampleAgentCandidate.agent = none := by
  constructor
  · decide
  · rfl

/-- C9 amended: successful agents' candidates are appended to the
aggregate verbatim and no provenance tag is added — every candidate of
the aggregate occurs, `agent` field included, in the success list of one
of the three agents exactly as that agent produced it. -/
theorem aggregate_appends_verbatim :
    ∀ (o : AgentOutcomes) (c : Candidate), c ∈ aggregateOf o →
      (∃ cs, o.ui = .ok cs ∧ c ∈ cs) ∨
      (∃ cs, o.geometry = .ok cs ∧ c ∈ cs) ∨
      (∃ cs, o.other = .ok cs ∧ c ∈ cs) := by
  intro o c hc
  simp only [aggregateOf, List.mem_append] at hc
  rcases hc with (h1 | h2) | h3
  · exact .inl (call_gemini_mem _ c h1)
  · exact .inr (.inl (call_gemini_mem _ c h2))
  · exact .inr (.inr (call_gemini_mem _ c h3))

/-- Witness for `aggregate_appends_verbatim`: the untagged sample
candidate of the concrete degraded run comes verbatim from the UI
agent's success list. -/
theorem aggregate_appends_verbatim_witness :
    (∃ cs, validatorFailOutcomes.ui = .ok cs ∧
      sampleAgentCandidate ∈ cs) ∨
    (∃ cs, validatorFailOutcomes.geometry = .ok cs ∧
      sampleAgentCandidate ∈ cs) ∨
    (∃ cs, validatorFailOutcomes.other = .ok cs ∧
      sampleAgentCandidate ∈ cs) :=
  aggregate_appends_verbatim validatorFailOutcomes sampleAgentCandidate
    (by decide)

/-- C10: every POST to `/context` ends in a `TypeError` raised by the
three-argument call to the two-parameter `append_event`, so the HTTP
caller never receives the computed decision, while the WebSocket path,
which calls `append_event` with two arguments, returns the
adaptations. -/
theorem process_event_raises_type_error :
    (∀ (o : AgentOutcomes) (e : Event) (p : Profile),
      process_event o e p =
        .error (.typeError
          "append_event: positional argument count mismatch")) ∧
    (∀ (o : AgentOutcomes) (e : Event) (p : Profile),
      websocket_adapt_step o e p =
        .ok (ma_smart_intent_fusion o e p p.interaction_history).candidates) := by
  constructor
  · intro o e p
    rfl
  · intro o e p
    rfl

end Backend

